import Mathlib

/-!
Shallow embedding of `src/python/cog/server/redis_queue.py` (the prediction
queue worker of stablecog/cog), together with theorems checking the
natural-language specification against it.

Modelling conventions:
* Timestamps (`datetime.datetime.now()`, `total_seconds()`) are modelled as
  natural numbers (seconds); each engine event comes paired with the wall
  clock value observed at that loop iteration and with the answer the cancel
  oracle (`should_cancel()`) would give there.
* The mutable response dict is modelled as a record holding the fields the
  worker itself reads or writes.  The pass-through of unrecognized message
  fields into the response does not affect any property below and is omitted.
  A dict key that may be absent is an `Option` field (`none` = key absent).
* Python exceptions are `Except String`; the string is `str(e)`.
* I/O performed by the worker (webhook POST, redis publish, S3 put, image
  transcode) is external; only its control flow (may raise / returns) is kept.
-/

namespace RedisQueue

/-- `cog.schema.Status` values used by the worker. -/
inductive Status where
  | processing
  | succeeded
  | canceled
  | failed
  deriving DecidableEq, Repr

/-- Event kinds attached to responses (`WebhookEvent` of `cog.schema`). -/
inductive WebhookEvent where
  | start
  | output
  | logs
  | completed
  deriving DecidableEq, Repr

/-- Payload of a terminal `Done` engine event (`cog.server.eventtypes.Done`). -/
structure DoneData where
  error : Bool
  error_detail : String
  canceled : Bool
  deriving DecidableEq, Repr

/-- One entry of `event.payload["outputs"]` as read by `run_prediction`
(lines 400-407): a dict with keys `image_bytes`, `target_quality`,
`target_extension`. -/
structure EngineOutput where
  image_bytes : String
  target_quality : Nat
  target_extension : String
  deriving DecidableEq, Repr

/-- Payload of a `PredictionOutput` engine event: keys `outputs` and
`nsfw_count` (lines 390-408). -/
structure PredictionOutputPayload where
  outputs : List EngineOutput
  nsfw_count : Nat
  deriving DecidableEq, Repr

/-- Engine events consumed by the driver loop (`cog.server.eventtypes`).
`unknown` stands for any other event, which the loop only logs (line 417). -/
inductive Event where
  | heartbeat
  | log (message : String)
  | predictionOutputType (multi : Bool)
  | predictionOutput (payload : PredictionOutputPayload)
  | done (d : DoneData)
  | unknown
  deriving DecidableEq, Repr

/-- `UploadObject` (lines 47-56): prediction output data pending upload. -/
structure UploadObject where
  image_bytes : String
  target_extension : String
  target_quality : Nat
  deriving DecidableEq, Repr

/-- The validated input object; the driver reads only
`input_obj.dict()["upload_path_prefix"]` from it (lines 385-388), absent
modelled as `none`. -/
structure InputObj where
  upload_path_prefix : Option String
  deriving DecidableEq, Repr

/-- The fields of a job message the supervisor reads (lines 242-269). -/
structure Message where
  webhook : Option String
  redis_pubsub_key : Option String
  cancel_key : Option String
  webhook_events_filter : Option (List String)
  deriving DecidableEq, Repr

/-- The response dict fields written by the worker.  `metrics_predict_time`
stands for `response["metrics"]["predict_time"]` (line 438-440). -/
structure Response where
  status : Status
  output : Option (List String)
  logs : String
  error : Option String
  started_at : Option Nat
  completed_at : Option Nat
  metrics_predict_time : Option Nat
  nsfw_count : Option Nat
  upload_outputs : Option (List UploadObject)
  upload_prefix : Option String
  deriving DecidableEq, Repr

/-- Worker configuration relevant to the driver: `self.predict_timeout`. -/
structure DriverConfig where
  predict_timeout : Option Nat
  deriving DecidableEq, Repr

/-- One iteration's worth of inputs to the driver loop: the engine event,
the value `should_cancel()` would return, and `datetime.datetime.now()`
observed at this iteration. -/
structure StepInput where
  event : Event
  cancelNow : Bool
  now : Nat
  deriving DecidableEq, Repr

/-- Which of the two `self.worker.cancel()` call sites fired (lines 351, 357). -/
inductive CancelReason where
  | userCancel
  | timeout
  deriving DecidableEq, Repr

/-- The driver loop's local state (lines 338-345). -/
structure LoopState where
  response : Response
  timedOut : Bool
  wasCanceled : Bool
  doneEvent : Option DoneData
  outputType : Option Bool
  hadError : Bool
  deriving DecidableEq, Repr

/-- Result of running the engine-event loop: final state, events yielded
during the loop, engine-cancel signals in order, and `some e` when an
assertion escaped the loop after consuming a prefix of the events. -/
structure LoopResult where
  state : LoopState
  emitted : List (WebhookEvent × Response)
  signals : List CancelReason
  aborted : Option String
  deriving Repr

/-- Lines 349-351: `if not was_canceled and should_cancel(): was_canceled =
True; self.worker.cancel()`. -/
def checkCancel (st : LoopState) (cancelNow : Bool) : LoopState × List CancelReason :=
  if !st.wasCanceled && cancelNow then
    ({ st with wasCanceled := true }, [CancelReason.userCancel])
  else (st, [])

/-- Lines 353-357: `if not timed_out and self.predict_timeout:` (a timeout of
`0` is falsy in Python and disables the check) `... if runtime >
self.predict_timeout: timed_out = True; self.worker.cancel()`. -/
def checkTimeout (cfg : DriverConfig) (started_at now : Nat) (st : LoopState) :
    LoopState × List CancelReason :=
  match cfg.predict_timeout with
  | none => (st, [])
  | some t =>
    if !st.timedOut && t != 0 then
      if now - started_at > t then
        ({ st with timedOut := true }, [CancelReason.timeout])
      else (st, [])
    else (st, [])

/-- The condition under which the timeout check fires at one iteration,
ignoring the one-shot latch. -/
def timeoutCond (cfg : DriverConfig) (started_at now : Nat) : Bool :=
  match cfg.predict_timeout with
  | none => false
  | some t => t != 0 && (now - started_at > t)

/-- Event dispatch of the driver loop (lines 359-417).  A failed `assert`
aborts with `str(AssertionError(msg)) = msg`; the inner `try` around the
`PredictionOutput` handler (lines 383-411) turns the missing-outputs raise
into `had_error = True`. -/
def dispatchEvent (input_obj : InputObj) (st : LoopState) :
    Event → Except String (LoopState × List (WebhookEvent × Response))
  | Event.heartbeat => Except.ok (st, [])
  | Event.log m =>
    let r := { st.response with logs := st.response.logs ++ m }
    Except.ok ({ st with response := r }, [(WebhookEvent.logs, r)])
  | Event.predictionOutputType multi =>
    if st.outputType.isSome then Except.error "Predictor returned unexpected output"
    else
      let r := if multi then { st.response with output := some [] } else st.response
      Except.ok ({ st with outputType := some multi, response := r }, [])
  | Event.predictionOutput payload =>
    if st.outputType.isNone then Except.error "Predictor returned unexpected output"
    else
      let r0 := { st.response with
                  upload_prefix := some (( InputObj.upload_path_prefix input_obj).getD "") }
      if payload.nsfw_count == 0 && payload.outputs.length == 0 then
        Except.ok ({ st with response := r0, hadError := true }, [])
      else
        let appended := (Response.upload_outputs r0).getD [] ++ payload.outputs.map
          (fun o => { image_bytes := o.image_bytes,
                      target_extension := o.target_extension,
                      target_quality := o.target_quality : UploadObject })
        let r1 := { r0 with output := some [],
                            upload_outputs := some appended,
                            nsfw_count := some payload.nsfw_count }
        Except.ok ({ st with response := r1 }, [])
  | Event.done d =>
    if st.doneEvent.isSome then Except.error "Predictor unexpectedly returned done twice"
    else Except.ok ({ st with doneEvent := some d }, [])
  | Event.unknown => Except.ok (st, [])

/-- The engine-event loop of `run_prediction` (lines 348-417): per event,
the cancel check, then the timeout check, then dispatch.  An abort stops the
iteration without consuming the remaining events. -/
def predictLoop (cfg : DriverConfig) (input_obj : InputObj) (started_at : Nat) :
    List StepInput → LoopState → LoopResult
  | [], st => { state := st, emitted := [], signals := [], aborted := none }
  | s :: rest, st =>
    let c1 := checkCancel st s.cancelNow
    let c2 := checkTimeout cfg started_at s.now c1.1
    match dispatchEvent input_obj c2.1 s.event with
    | Except.error e =>
      { state := c2.1, emitted := [], signals := c1.2 ++ c2.2, aborted := some e }
    | Except.ok (st3, ems) =>
      let r := predictLoop cfg input_obj started_at rest st3
      { state := r.state, emitted := ems ++ r.emitted,
        signals := c1.2 ++ c2.2 ++ r.signals, aborted := r.aborted }

/-- Lines 419-440: record `completed_at`, `assert done_event` (a bare assert,
whose `str` is empty), then the terminal status tie-break. -/
def finishPrediction (st : LoopState) (started_at completed_at : Nat) :
    Except String Response :=
  let r := { st.response with completed_at := some completed_at }
  match st.doneEvent with
  | none => Except.error ""
  | some d =>
    if st.hadError then
      Except.ok { r with status := Status.failed, error := some "Error uploading files" }
    else if d.canceled && st.wasCanceled then
      Except.ok { r with status := Status.canceled }
    else if d.canceled && st.timedOut then
      Except.ok { r with status := Status.failed, error := some "Prediction timed out" }
    else if d.error then
      Except.ok { r with status := Status.failed, error := some d.error_detail }
    else
      Except.ok { r with status := Status.succeeded,
                         metrics_predict_time := some (completed_at - started_at) }

/-- The response fields as first written by `run_prediction`
(lines 312-315): `status = processing`, `output = None`, `logs = ""`. -/
def initResponse : Response :=
  { status := Status.processing, output := none, logs := "", error := none,
    started_at := none, completed_at := none, metrics_predict_time := none,
    nsfw_count := none, upload_outputs := none, upload_prefix := none }

/-- The response as yielded with the `start` event (lines 333-336):
`started_at` has been set, `upload_outputs` not yet. -/
def startResponse (started_at : Nat) : Response :=
  { initResponse with started_at := some started_at }

/-- The driver loop's state on entry (lines 338-345), after
`response["upload_outputs"] = []`. -/
def initLoopState (started_at : Nat) : LoopState :=
  { response := { startResponse started_at with upload_outputs := some [] },
    timedOut := false, wasCanceled := false, doneEvent := none,
    outputType := none, hadError := false }

/-- The response carried by the final `completed` event: the terminal
tie-break of `finishPrediction` when the loop ended normally, or the
`except` block of lines 441-446 when an assertion escaped (including the
bare `assert done_event`, whose message is empty). -/
def finalResponseOf (lr : LoopResult) (started_at endNow : Nat) : Response :=
  match lr.aborted with
  | some e =>
    { lr.state.response with completed_at := some endNow,
                             status := Status.failed, error := some e }
  | none =>
    match finishPrediction lr.state started_at endNow with
    | Except.ok r => r
    | Except.error e =>
      { lr.state.response with completed_at := some endNow,
                               status := Status.failed, error := some e }

/-- Result of `run_prediction` for one message. -/
structure RunResult where
  events : List (WebhookEvent × Response)
  finalResponse : Response
  finalState : Option LoopState
  signals : List CancelReason
  aborted : Option String
  predictInvoked : Bool
  deriving Repr

/-- `run_prediction` (lines 307-453).  `validated` is the outcome of
`self.InputType(**response["input"])`; on failure the completed response is
yielded at once and `self.worker.predict` is never called.  Otherwise the
`start` event is yielded (before `response["upload_outputs"] = []` runs),
the engine loop is driven, and the `finally` block yields the completed
response, whose terminal fields come from `finishPrediction` or, if an
assertion escaped, from the `except` block (lines 441-446). -/
def runPrediction (cfg : DriverConfig) (validated : Except String InputObj)
    (steps : List StepInput) (started_at endNow : Nat) : RunResult :=
  match validated with
  | Except.error e =>
    let r := { initResponse with status := Status.failed, error := some e }
    { events := [(WebhookEvent.completed, r)], finalResponse := r, finalState := none,
      signals := [], aborted := none, predictInvoked := false }
  | Except.ok input_obj =>
    let lr := predictLoop cfg input_obj started_at steps (initLoopState started_at)
    { events := (WebhookEvent.start, startResponse started_at)
        :: lr.emitted ++ [(WebhookEvent.completed, finalResponseOf lr started_at endNow)],
      finalResponse := finalResponseOf lr started_at endNow,
      finalState := some lr.state, signals := lr.signals,
      aborted := lr.aborted, predictInvoked := true }

/-- Modelled from the spec: the string values of the `WebhookEvent`
enumeration of `cog.schema`, which is not under `src/`; spec §3 lists the
filter values as drawn from start, output, logs, completed. -/
def webhookEventOfString : String → Option WebhookEvent
  | "start" => some WebhookEvent.start
  | "output" => some WebhookEvent.output
  | "logs" => some WebhookEvent.logs
  | "completed" => some WebhookEvent.completed
  | _ => none

/-- Modelled from the spec: `{ev.value for ev in WebhookEvent}` (line 256);
spec §3 lists the valid filter values. -/
def validEvents : List String := ["start", "output", "logs", "completed"]

/-- Modelled from the spec: `WebhookEvent.default_events()` of `cog.schema`
(line 269), not under `src/`.  Spec scenario 1 (no filter in the message)
expects the `start` event delivered, and §4.2 filters only when a filter is
given: the default admits every event kind. -/
def defaultEvents : List WebhookEvent :=
  [WebhookEvent.start, WebhookEvent.output, WebhookEvent.logs, WebhookEvent.completed]

/-- Lines 255-269: validation of `webhook_events_filter` (a `ValueError` on
any invalid entry) and construction of `events_filter`, always including the
completed event.  List membership models set membership. -/
def computeEventsFilter (wef : Option (List String)) : Except String (List WebhookEvent) :=
  match wef with
  | none => Except.ok defaultEvents
  | some evs =>
    if evs.all (fun e => validEvents.contains e) then
      Except.ok (evs.filterMap webhookEventOfString ++ [WebhookEvent.completed])
    else Except.error "Invalid webhook event"

/-- The per-job response sink (lines 242-247): `webhook_caller(webhook)` when
`webhook` is present, else `redis_publisher(message["redis_pubsub_key"])`;
a missing pubsub key is a `KeyError`. -/
inductive SinkKind where
  | webhook (url : String)
  | pubsub (channel : String)
  deriving DecidableEq, Repr

/-- Sink selection of the supervisor (lines 242-247). -/
def selectSink (msg : Message) : Except String SinkKind :=
  match msg.webhook with
  | some url => Except.ok (SinkKind.webhook url)
  | none =>
    match msg.redis_pubsub_key with
    | some k => Except.ok (SinkKind.pubsub k)
    | none => Except.error "KeyError: redis_pubsub_key"

/-- Lines 274-277: `"upload_outputs" in response and
len(response["upload_outputs"]) > 0`. -/
def responseHasUploads (r : Response) : Bool :=
  match r.upload_outputs with
  | some l => decide (0 < l.length)
  | none => false

/-- Accumulated effect of the supervisor's per-event dispatch. -/
structure RouteState where
  delivered : List (WebhookEvent × Response)
  enqueued : List (WebhookEvent × Response)
  deriving DecidableEq, Repr

/-- The supervisor's event dispatch loop (lines 271-280): each driver event
either goes to the upload queue (when the response snapshot has a non-empty
`upload_outputs`), or to `send_response` when its kind is in `events_filter`,
or nowhere.  `sinkFail i = true` means the `send_response` call for the
event at index `i` raises (e.g. a webhook POST failure); the exception
escapes the dispatch loop. -/
def routeEvents (filter : List WebhookEvent) (sinkFail : Nat → Bool) :
    Nat → List (WebhookEvent × Response) → RouteState → RouteState × Option String
  | _, [], acc => (acc, none)
  | i, p :: rest, acc =>
    if responseHasUploads p.2 then
      routeEvents filter sinkFail (i + 1) rest { acc with enqueued := acc.enqueued ++ [p] }
    else if p.1 ∈ filter then
      if sinkFail i then (acc, some "exception in send_response")
      else routeEvents filter sinkFail (i + 1) rest { acc with delivered := acc.delivered ++ [p] }
    else routeEvents filter sinkFail (i + 1) rest acc

/-- Lines 282-295: the failure-streak update after one job, given
`max_failure_count` and the status read from the response.  Returns the new
`failure_count` and whether `should_exit` was set by this job. -/
def updateFailureStreak (max_failure_count : Option Nat) (status : Status)
    (failure_count : Nat) : Nat × Bool :=
  match max_failure_count with
  | none => (failure_count, false)
  | some maxN =>
    if status = Status.failed then
      (failure_count + 1, decide (failure_count + 1 > maxN))
    else (0, false)

/-- The failure-streak state machine across consecutive jobs' terminal
statuses, starting from `failure_count = 0` (line 212); once `should_exit`
is set the `while not self.should_exit` loop (line 215) processes no more
messages. -/
def runFailureStreak (max_failure_count : Option Nat) (statuses : List Status) :
    Nat × Bool :=
  statuses.foldl
    (fun acc s =>
      if acc.2 then acc
      else updateFailureStreak max_failure_count s acc.1)
    (0, false)

/-- Observable outcome of the supervisor loop body for one message
(lines 215-302). -/
structure SupervisorOutcome where
  sinkUsed : Option SinkKind
  delivered : List (WebhookEvent × Response)
  uploadEnqueued : List (WebhookEvent × Response)
  acked : Bool
  deleted : Bool
  exceptionLogged : Option String
  failureCount : Nat
  shouldExit : Bool
  iterationCompleted : Bool
  deriving Repr

/-- Outcome of the `except` branch (lines 300-302): the traceback is logged,
`xack`/`xdel` are skipped, `failure_count` and `should_exit` are untouched
and the loop continues. -/
def exceptionalOutcome (sink : Option SinkKind) (e : String) (fc0 : Nat) :
    SupervisorOutcome :=
  { sinkUsed := sink, delivered := [], uploadEnqueued := [], acked := false,
    deleted := false, exceptionLogged := some e, failureCount := fc0,
    shouldExit := false, iterationCompleted := false }

/-- The supervisor loop body for one received message (lines 216-302):
parse the payload (`parsed`), build the sink, validate the events filter,
iterate the driver events routing each one, then run the failure-streak
policy on the status of the last yielded response and `xack`+`xdel` the
message.  Any exception lands in `exceptionalOutcome`. -/
def processMessage (cfg : DriverConfig) (parsed : Except String Message)
    (validated : Except String InputObj) (steps : List StepInput)
    (started_at endNow : Nat) (sinkFail : Nat → Bool)
    (max_failure_count : Option Nat) (fc0 : Nat) : SupervisorOutcome :=
  match parsed with
  | Except.error e => exceptionalOutcome none e fc0
  | Except.ok msg =>
    match selectSink msg with
    | Except.error e => exceptionalOutcome none e fc0
    | Except.ok sink =>
      match computeEventsFilter msg.webhook_events_filter with
      | Except.error e => exceptionalOutcome (some sink) e fc0
      | Except.ok filter =>
        let res := runPrediction cfg validated steps started_at endNow
        let routed := routeEvents filter sinkFail 0 res.events { delivered := [], enqueued := [] }
        match routed.2 with
        | some e =>
          { sinkUsed := some sink, delivered := routed.1.delivered,
            uploadEnqueued := routed.1.enqueued, acked := false, deleted := false,
            exceptionLogged := some e, failureCount := fc0, shouldExit := false,
            iterationCompleted := false }
        | none =>
          let fs := updateFailureStreak max_failure_count res.finalResponse.status fc0
          { sinkUsed := some sink, delivered := routed.1.delivered,
            uploadEnqueued := routed.1.enqueued, acked := true, deleted := true,
            exceptionLogged := none, failureCount := fs.1, shouldExit := fs.2,
            iterationCompleted := true }

/-- `ensure_trailing_slash` (lines 577-584). -/
def ensure_trailing_slash (url : String) : String :=
  if url.endsWith "/" then url else url ++ "/"

/-- The object key and returned URL of `convert_and_upload_to_s3`
(lines 497-524).  The image transcode (`convert_bytes_to_target`) and the S3
`put_object` are external I/O that do not affect the returned value; the
`uuid.uuid4()` string is passed in explicitly as `uuidStr`.  `image_bytes`
and `target_quality` are kept for the source's signature but only feed the
transcode. -/
def convert_and_upload_to_s3 (s3_bucket : String) (uuidStr : String)
    (image_bytes : String) (target_quality : Nat) (target_extension : String)
    ( upload_path_prefix : Option String) : String :=
  let key0 := uuidStr ++ target_extension
  let key :=
    match upload_path_prefix with
    | some p => if p != "" then ensure_trailing_slash p ++ key0 else key0
    | none => key0
  let _ := image_bytes
  let _ := target_quality
  "s3://" ++ s3_bucket ++ "/" ++ key

/-- `upload_files` (lines 526-556).  One task per upload object is submitted
to a pool in list order and each future's value is a pure function of its
own submission (modelled by indexing the uuid supply with the submission
index), so gathering `task.result()` over `tasks` in submission order is a
map in list order regardless of completion order.
`ThreadPoolExecutor(max_workers=0)` raises `ValueError` on an empty list. -/
def upload_files (s3_bucket : String) (uuids : Nat → String)
    (uploadObjects : List UploadObject) ( upload_path_prefix : Option String) :
    Except String (List String) :=
  if uploadObjects.length == 0 then
    Except.error "max_workers must be greater than 0"
  else
    Except.ok (uploadObjects.enum.map (fun iu =>
      convert_and_upload_to_s3 s3_bucket (uuids iu.1) iu.2.image_bytes
        iu.2.target_quality iu.2.target_extension upload_path_prefix))

/-- The two unsynchronized accesses to the shared response dict of a job
whose completed response went to the upload queue: the supervisor's
failure-streak read of `response["status"]` (lines 282-295) and the upload
thread's rewrite `uploadMsg["status"] = Status.FAILED` on an upload
exception (lines 156-159).  Both threads touch the same dict object
(`self.upload_queue.put(response)` at line 278 passes a reference). -/
inductive RaceAction where
  | supervisorRead
  | uploadRun
  deriving DecidableEq, Repr

/-- Shared state for the status race: the dict's `status` field, the
supervisor's `failure_count`, and whether the streak policy set
`should_exit`. -/
structure RaceState where
  sharedStatus : Status
  failureCount : Nat
  exitTriggered : Bool
  deriving DecidableEq, Repr

/-- One atomic action of either thread.  `uploadFails` says whether
`upload_files` raises for this job (line 156). -/
def raceStep (max_failure_count : Option Nat) (uploadFails : Bool)
    (st : RaceState) : RaceAction → RaceState
  | RaceAction.supervisorRead =>
    let fs := updateFailureStreak max_failure_count st.sharedStatus st.failureCount
    { st with failureCount := fs.1, exitTriggered := st.exitTriggered || fs.2 }
  | RaceAction.uploadRun =>
    if uploadFails then { st with sharedStatus := Status.failed } else st

/-- An interleaving of the two threads over the shared response of one job:
`driverStatus` is the terminal status the driver wrote before yielding the
completed response, `sched` the order in which the two actions execute. -/
def raceRun (max_failure_count : Option Nat) (uploadFails : Bool)
    (driverStatus : Status) (fc0 : Nat) (sched : List RaceAction) : RaceState :=
  sched.foldl (raceStep max_failure_count uploadFails)
    { sharedStatus := driverStatus, failureCount := fc0, exitTriggered := false }

/-- Follows the claim's tie-break table (spec §4.4) word for word, to be
compared with the code's `finishPrediction`. -/
def specTerminalStatus (hadUploadError wasCanceled timedOut : Bool) (d : DoneData) :
    Status :=
  if hadUploadError then Status.failed
  else if d.canceled && wasCanceled then Status.canceled
  else if d.canceled && timedOut then Status.failed
  else if d.error then Status.failed
  else Status.succeeded

/-- The error string the claim's tie-break table assigns to each failed
branch. -/
def specTerminalError (hadUploadError wasCanceled timedOut : Bool) (d : DoneData) :
    Option String :=
  if hadUploadError then some "Error uploading files"
  else if d.canceled && wasCanceled then none
  else if d.canceled && timedOut then some "Prediction timed out"
  else if d.error then some d.error_detail
  else none

/-! ## Helper lemmas -/

/-- Auxiliary: running the failure-streak fold over `k` consecutive failures
from a live (non-exited) counter `fc` with `fc + k ≤ maxN` neither exits nor
resets. -/
theorem failureStreak_foldl_replicate (maxN k fc : Nat) (h : fc + k ≤ maxN) :
    List.foldl
      (fun acc s => if acc.2 then acc else updateFailureStreak (some maxN) s acc.1)
      (fc, false) (List.replicate k Status.failed) = (fc + k, false) := by
  induction k generalizing fc with
  | zero => simp
  | succ n ih =>
    rw [List.replicate_succ, List.foldl_cons]
    have hstep :
        (if (fc, false).2 then (fc, false)
         else updateFailureStreak (some maxN) Status.failed fc) = (fc + 1, false) := by
      simp only [updateFailureStreak, if_false, if_pos rfl]
      have : ¬ fc + 1 > maxN := by omega
      simp [this]
    rw [hstep]
    have := ih (fc + 1) (by omega)
    rw [this]
    congr 1
    omega

/-- A string ends with `"/"` exactly when its last character is `'/'`.  This
characterizes `String.endsWith` (whose definition is by well-founded
recursion and does not reduce in the kernel) by a structurally computable
predicate. -/
theorem endsWith_slash_eq (s : String) :
    s.endsWith "/" = (s.data.getLast? == some '/') := by
  obtain ⟨cs⟩ := s
  rcases cs.eq_nil_or_concat with rfl | ⟨init, c, rfl⟩
  · decide
  · simp only [List.concat_eq_append]
    show String.endsWith ⟨init ++ [c]⟩ ⟨['/']⟩ = ((init ++ [c]).getLast? == some '/')
    rw [List.getLast?_concat]
    rw [String.endsWith]
    simp only [String.toSubstring, String.length, Substring.takeRight, Substring.prevn,
      Substring.prev, Substring.bsize]
    simp only [String.endPos_eq, String.utf8Len_append, String.utf8Len_cons, String.utf8Len_nil]
    have hadd : ∀ m n : Nat,
        ({ byteIdx := m } : String.Pos) + { byteIdx := n } = { byteIdx := m + n } :=
      fun _ _ => rfl
    have hsub : ∀ n : Nat, n.sub 0 = n := fun _ => rfl
    simp only [hadd, hsub, Nat.zero_add, Nat.sub_zero, Nat.add_zero]
    have hne : ({ byteIdx := String.utf8Len init + c.utf8Size } : String.Pos)
        ≠ { byteIdx := 0 } := by
      have := Char.utf8Size_pos c
      simp only [ne_eq, String.Pos.ext_iff]
      omega
    rw [if_neg hne]
    have hprev : ({ data := init ++ [c] } : String).prev
        { byteIdx := String.utf8Len init + c.utf8Size }
        = { byteIdx := String.utf8Len init } := by
      have := String.prev_of_valid init c []
      simpa using this
    rw [hprev]
    show (Substring.beq _ _) = _
    rw [Substring.beq]
    simp only [Substring.bsize]
    have h1 : (String.utf8Len init + c.utf8Size).sub (String.utf8Len init) = c.utf8Size := by
      show String.utf8Len init + c.utf8Size - String.utf8Len init = c.utf8Size
      omega
    rw [h1]
    have hszslash : ('/' : Char).utf8Size.sub 0 = 1 := rfl
    rw [hszslash]
    by_cases hc : c = '/'
    · subst hc
      have hsz : ('/' : Char).utf8Size = 1 := rfl
      rw [hsz]
      simp only [beq_self_eq_true, Bool.true_and]
      rw [String.substrEq]
      simp only [String.endPos_eq, String.utf8Len_append, String.utf8Len_cons,
        String.utf8Len_nil]
      rw [String.substrEq.loop]
      have hget : ({ data := init ++ ['/'] } : String).get
          { byteIdx := String.utf8Len init } = '/' :=
        String.get_of_valid init ['/']
      have hget2 : ({ data := ['/'] } : String).get { byteIdx := 0 } = '/' := rfl
      simp only [hget, hget2]
      have haddc : ({ byteIdx := String.utf8Len init } : String.Pos) + '/'
          = { byteIdx := String.utf8Len init + 1 } := rfl
      rw [String.substrEq.loop]
      simp [hsz, haddc]
    · have hrhs : (some c == some '/') = false := by
        simp [hc]
      rw [hrhs]
      by_cases hsz : c.utf8Size = 1
      · rw [hsz]
        simp only [beq_self_eq_true, Bool.true_and]
        rw [String.substrEq]
        simp only [String.endPos_eq, String.utf8Len_append, String.utf8Len_cons,
          String.utf8Len_nil]
        rw [String.substrEq.loop]
        have hget : ({ data := init ++ [c] } : String).get
            { byteIdx := String.utf8Len init } = c :=
          String.get_of_valid init [c]
        have hget2 : ({ data := ['/'] } : String).get { byteIdx := 0 } = '/' := rfl
        simp only [hget, hget2]
        have hbeq : (c == '/') = false := by simp [hc]
        simp [hbeq, hsz]
      · have hbeq : (c.utf8Size == 1) = false := by simp [hsz]
        rw [hbeq, Bool.false_and]

/-- Appending `"/"` to any string yields a string that ends with `"/"`. -/
theorem endsWith_append_slash (s : String) : (s ++ "/").endsWith "/" = true := by
  rw [endsWith_slash_eq]
  show ((s.data ++ ['/']).getLast? == some '/') = true
  rw [List.getLast?_concat]
  rfl

/-! ## C4 -/

/-- C4, counterexample: with `max_failure_count = 1`, a single job with
terminal status `failed` leaves `failure_count = 1` and does **not** set
`should_exit` (the code exits only when the counter strictly exceeds
`max_failure_count`), contradicting the claim that N consecutive failures
trigger shutdown. -/
theorem c4_counterexample :
    runFailureStreak (some 1) [Status.failed] = (1, false) := by rfl

/-- C4, amended: when `max_failure_count = N` is configured, the
failure-streak counter increments by one on each failed terminal status and
resets to 0 on any non-failed one, and shutdown is triggered exactly when
the counter exceeds N, i.e. on the (N+1)-th consecutive failure: N
consecutive failures leave `should_exit` unset, N+1 set it. -/
theorem c4_failure_streak (maxN fc : Nat) (s : Status) :
    updateFailureStreak (some maxN) s fc
      = (if s = Status.failed then fc + 1 else 0,
         if s = Status.failed then decide (fc + 1 > maxN) else false)
    ∧ runFailureStreak (some maxN) (List.replicate maxN Status.failed) = (maxN, false)
    ∧ runFailureStreak (some maxN) (List.replicate (maxN + 1) Status.failed)
        = (maxN + 1, true) := by
  refine ⟨?_, ?_, ?_⟩
  · by_cases hs : s = Status.failed <;> simp [updateFailureStreak, hs]
  · have := failureStreak_foldl_replicate maxN maxN 0 (by omega)
    simpa [runFailureStreak] using this
  · rw [runFailureStreak, List.replicate_succ', List.foldl_append]
    have := failureStreak_foldl_replicate maxN maxN 0 (by omega)
    rw [show ((0 : Nat), false) = (0 + 0, false) by rfl] at this
    simp only [Nat.zero_add] at this
    rw [this]
    simp [updateFailureStreak]

/-! ## C5 -/

/-- C5: a job message whose input fails engine input-schema validation
yields exactly one event — a completed response with `status = failed` and
`error` the validation exception message — and `self.worker.predict` is
never invoked. -/
theorem c5_validation_failure (cfg : DriverConfig) (steps : List StepInput)
    (t0 tE : Nat) (e : String) :
    (runPrediction cfg (Except.error e) steps t0 tE).events
      = [(WebhookEvent.completed,
          { initResponse with status := Status.failed, error := some e })]
    ∧ (runPrediction cfg (Except.error e) steps t0 tE).predictInvoked = false := by
  exact ⟨rfl, rfl⟩

/-! ## C9 -/

/-- C9, counterexample: the failure-streak read and the Upload Stage's
status rewrite race on the same response dict.  Under the interleaving in
which the upload thread's failed upload rewrites `status` before the
supervisor reads it, a job whose driver terminal status was `succeeded`
increments the counter and (with `max_failure_count = 0`) triggers the
failure-streak exit — so an upload failure alone can trigger it. -/
theorem c9_counterexample :
    raceRun (some 0) true Status.succeeded 0
        [RaceAction.uploadRun, RaceAction.supervisorRead]
      = { sharedStatus := Status.failed, failureCount := 1, exitTriggered := true } := by
  rfl

/-- C9, amended: the counter update reads the shared response object's
status with no synchronization against the upload thread.  Under the
interleaving in which the supervisor's read precedes the Upload Stage's
rewrite, the counter and the exit flag are exactly those computed from the
driver's terminal status, and whether the upload fails has no effect;
under the opposite interleaving an upload failure is counted (see the
counterexample). -/
theorem c9_streak_uses_driver_status (maxN : Option Nat) (uploadFails : Bool)
    (driverStatus : Status) (fc0 : Nat) :
    (raceRun maxN uploadFails driverStatus fc0
        [RaceAction.supervisorRead, RaceAction.uploadRun]).failureCount
      = (updateFailureStreak maxN driverStatus fc0).1
    ∧ (raceRun maxN uploadFails driverStatus fc0
        [RaceAction.supervisorRead, RaceAction.uploadRun]).exitTriggered
      = (updateFailureStreak maxN driverStatus fc0).2 := by
  cases uploadFails <;> simp [raceRun, raceStep]

/-! ## C10 -/

/-- C10: the object key is `<uuid><extension>` (no prefix segment, and no
leading slash provided the uuid string does not start with one) when
`upload_path_prefix` is `None` or empty, and otherwise the prefix followed
by exactly one slash then `<uuid><extension>` — a prefix already ending in
`'/'` gains no second slash — and `ensure_trailing_slash` is idempotent. -/
theorem c10_upload_key (bucket u ib : String) (q : Nat) (ext : String) :
    convert_and_upload_to_s3 bucket u ib q ext none
      = "s3://" ++ bucket ++ "/" ++ (u ++ ext)
    ∧ convert_and_upload_to_s3 bucket u ib q ext (some "")
      = "s3://" ++ bucket ++ "/" ++ (u ++ ext)
    ∧ (u.data ≠ [] → u.data.head? ≠ some '/' → (u ++ ext).data.head? ≠ some '/')
    ∧ (∀ p : String, p ≠ "" → p.endsWith "/" = false →
        convert_and_upload_to_s3 bucket u ib q ext (some p)
          = "s3://" ++ bucket ++ "/" ++ (p ++ "/" ++ (u ++ ext)))
    ∧ (∀ p : String, p ≠ "" → p.endsWith "/" = true →
        convert_and_upload_to_s3 bucket u ib q ext (some p)
          = "s3://" ++ bucket ++ "/" ++ (p ++ (u ++ ext)))
    ∧ (∀ w : String, ensure_trailing_slash (ensure_trailing_slash w)
          = ensure_trailing_slash w) := by
  refine ⟨rfl, rfl, ?_, ?_, ?_, ?_⟩
  · intro h1 h2
    rw [String.data_append, List.head?_append_of_ne_nil _ h1]
    exact h2
  · intro p hne hew
    have hbne : (p != "") = true := by simp [hne]
    simp [convert_and_upload_to_s3, ensure_trailing_slash, hbne, hew]
  · intro p hne hew
    have hbne : (p != "") = true := by simp [hne]
    simp [convert_and_upload_to_s3, ensure_trailing_slash, hbne, hew]
  · intro w
    by_cases h : w.endsWith "/" = true
    · have hw : ensure_trailing_slash w = w := by
        rw [ensure_trailing_slash, if_pos h]
      rw [hw]
      exact hw
    · have hw : ensure_trailing_slash w = w ++ "/" := by
        rw [ensure_trailing_slash, if_neg h]
      rw [hw, ensure_trailing_slash, if_pos (endsWith_append_slash w)]

/-- C10, witness: concrete evaluation for a non-empty prefix without a
trailing slash, and idempotence on it. -/
theorem c10_witness :
    convert_and_upload_to_s3 "bkt" "u" "b" 90 ".png" (some "folder")
      = "s3://" ++ "bkt" ++ "/" ++ ("folder" ++ "/" ++ ("u" ++ ".png"))
    ∧ ensure_trailing_slash (ensure_trailing_slash "folder")
      = ensure_trailing_slash "folder" :=
  ⟨(c10_upload_key "bkt" "u" "b" 90 ".png").2.2.2.1 "folder" (by decide)
      (by rw [endsWith_slash_eq]; decide),
   (c10_upload_key "bkt" "u" "b" 90 ".png").2.2.2.2.2 "folder"⟩

/-! ## C8 -/

/-- C8: for a non-empty list of upload objects, `upload_files` returns (does
not raise) a list of URLs of the same length, whose i-th entry is the URL
produced from the i-th upload object (results are gathered by submission
index), and every returned URL has the form `s3://<bucket>/<key>`. -/
theorem c8_upload_order (bucket : String) (uuids : Nat → String)
    (objs : List UploadObject) (pre : Option String) (h : objs ≠ []) :
    ∃ urls : List String,
      upload_files bucket uuids objs pre = Except.ok urls
      ∧ urls.length = objs.length
      ∧ (∀ (i : Nat) (o : UploadObject), objs[i]? = some o →
          urls[i]? = some (convert_and_upload_to_s3 bucket (uuids i)
            o.image_bytes o.target_quality o.target_extension pre))
      ∧ (∀ url ∈ urls, ∃ key, url = "s3://" ++ bucket ++ "/" ++ key) := by
  have hlen : (objs.length == 0) = false := by
    simp [List.length_eq_zero, h]
  refine ⟨objs.enum.map (fun iu =>
      convert_and_upload_to_s3 bucket (uuids iu.1) iu.2.image_bytes
        iu.2.target_quality iu.2.target_extension pre), ?_, ?_, ?_, ?_⟩
  · rw [upload_files]
    simp [hlen]
  · simp [List.enum]
  · intro i o ho
    simp [List.enum, List.getElem?_enumFrom, ho]
  · intro url hu
    rw [List.mem_map] at hu
    obtain ⟨iu, _, rfl⟩ := hu
    exact ⟨_, rfl⟩

/-- C8, witness: a concrete two-object upload returning both URLs in
submission order. -/
theorem c8_witness :
    ∃ urls : List String,
      upload_files "bkt" (fun i => "u" ++ toString i)
          [{ image_bytes := "a", target_extension := ".png", target_quality := 90 },
           { image_bytes := "b", target_extension := ".jpg", target_quality := 80 }]
          (some "pre")
        = Except.ok urls
      ∧ urls.length
          = ([{ image_bytes := "a", target_extension := ".png", target_quality := 90 },
              { image_bytes := "b", target_extension := ".jpg", target_quality := 80 }] :
              List UploadObject).length
      ∧ (∀ (i : Nat) (o : UploadObject),
          ([{ image_bytes := "a", target_extension := ".png", target_quality := 90 },
            { image_bytes := "b", target_extension := ".jpg", target_quality := 80 }] :
            List UploadObject)[i]? = some o →
          urls[i]? = some (convert_and_upload_to_s3 "bkt" ("u" ++ toString i)
            o.image_bytes o.target_quality o.target_extension (some "pre")))
      ∧ (∀ url ∈ urls, ∃ key, url = "s3://" ++ "bkt" ++ "/" ++ key) :=
  c8_upload_order "bkt" (fun i => "u" ++ toString i)
    [{ image_bytes := "a", target_extension := ".png", target_quality := 90 },
     { image_bytes := "b", target_extension := ".jpg", target_quality := 80 }]
    (some "pre") (by decide)

/-! ## Routing lemmas -/

theorem routeEvents_acc_delivered (F : List WebhookEvent) (sf : Nat → Bool) :
    ∀ (evs : List (WebhookEvent × Response)) (i : Nat) (acc : RouteState)
      (p : WebhookEvent × Response), p ∈ acc.delivered →
      p ∈ (routeEvents F sf i evs acc).1.delivered := by
  intro evs
  induction evs with
  | nil => intro i acc p hp; exact hp
  | cons q rest ih =>
    intro i acc p hp
    rw [routeEvents]
    split_ifs with h1 h2 h3
    · exact ih _ _ p hp
    · exact hp
    · exact ih _ _ p (List.mem_append_left _ hp)
    · exact ih _ _ p hp

theorem routeEvents_acc_enqueued (F : List WebhookEvent) (sf : Nat → Bool) :
    ∀ (evs : List (WebhookEvent × Response)) (i : Nat) (acc : RouteState)
      (p : WebhookEvent × Response), p ∈ acc.enqueued →
      p ∈ (routeEvents F sf i evs acc).1.enqueued := by
  intro evs
  induction evs with
  | nil => intro i acc p hp; exact hp
  | cons q rest ih =>
    intro i acc p hp
    rw [routeEvents]
    split_ifs with h1 h2 h3
    · exact ih _ _ p (List.mem_append_left _ hp)
    · exact hp
    · exact ih _ _ p hp
    · exact ih _ _ p hp

theorem routeEvents_delivered_sound (F : List WebhookEvent) (sf : Nat → Bool) :
    ∀ (evs : List (WebhookEvent × Response)) (i : Nat) (acc : RouteState)
      (p : WebhookEvent × Response),
      p ∈ (routeEvents F sf i evs acc).1.delivered →
      p ∈ acc.delivered ∨ (responseHasUploads p.2 = false ∧ p.1 ∈ F ∧ p ∈ evs) := by
  intro evs
  induction evs with
  | nil => intro i acc p hp; exact Or.inl hp
  | cons q rest ih =>
    intro i acc p hp
    rw [routeEvents] at hp
    split_ifs at hp with h1 h2 h3
    · rcases ih _ _ p hp with h | ⟨ha, hb, hc⟩
      · exact Or.inl h
      · exact Or.inr ⟨ha, hb, List.mem_cons_of_mem _ hc⟩
    · exact Or.inl hp
    · rcases ih _ _ p hp with h | ⟨ha, hb, hc⟩
      · rcases List.mem_append.1 h with h | h
        · exact Or.inl h
        · rcases List.mem_singleton.1 h with rfl
          exact Or.inr ⟨Bool.not_eq_true _ ▸ (by simpa using h1), h2, List.mem_cons_self _ _⟩
      · exact Or.inr ⟨ha, hb, List.mem_cons_of_mem _ hc⟩
    · rcases ih _ _ p hp with h | ⟨ha, hb, hc⟩
      · exact Or.inl h
      · exact Or.inr ⟨ha, hb, List.mem_cons_of_mem _ hc⟩

theorem routeEvents_enqueued_sound (F : List WebhookEvent) (sf : Nat → Bool) :
    ∀ (evs : List (WebhookEvent × Response)) (i : Nat) (acc : RouteState)
      (p : WebhookEvent × Response),
      p ∈ (routeEvents F sf i evs acc).1.enqueued →
      p ∈ acc.enqueued ∨ (responseHasUploads p.2 = true ∧ p ∈ evs) := by
  intro evs
  induction evs with
  | nil => intro i acc p hp; exact Or.inl hp
  | cons q rest ih =>
    intro i acc p hp
    rw [routeEvents] at hp
    split_ifs at hp with h1 h2 h3
    · rcases ih _ _ p hp with h | ⟨ha, hb⟩
      · rcases List.mem_append.1 h with h | h
        · exact Or.inl h
        · rcases List.mem_singleton.1 h with rfl
          exact Or.inr ⟨h1, List.mem_cons_self _ _⟩
      · exact Or.inr ⟨ha, List.mem_cons_of_mem _ hb⟩
    · exact Or.inl hp
    · rcases ih _ _ p hp with h | ⟨ha, hb⟩
      · exact Or.inl h
      · exact Or.inr ⟨ha, List.mem_cons_of_mem _ hb⟩
    · rcases ih _ _ p hp with h | ⟨ha, hb⟩
      · exact Or.inl h
      · exact Or.inr ⟨ha, List.mem_cons_of_mem _ hb⟩

theorem routeEvents_none_complete (F : List WebhookEvent) (sf : Nat → Bool) :
    ∀ (evs : List (WebhookEvent × Response)) (i : Nat) (acc : RouteState),
      (routeEvents F sf i evs acc).2 = none →
      ∀ p ∈ evs,
        (responseHasUploads p.2 = true → p ∈ (routeEvents F sf i evs acc).1.enqueued)
        ∧ (responseHasUploads p.2 = false → p.1 ∈ F →
            p ∈ (routeEvents F sf i evs acc).1.delivered) := by
  intro evs
  induction evs with
  | nil => intro i acc _ p hp; cases hp
  | cons q rest ih =>
    intro i acc hnone p hp
    rw [routeEvents] at hnone ⊢
    by_cases h1 : responseHasUploads q.2 = true
    · rw [if_pos h1] at hnone ⊢
      rcases List.mem_cons.1 hp with rfl | hp2
      · refine ⟨fun _ => ?_, fun hfalse _ => ?_⟩
        · apply routeEvents_acc_enqueued
          show p ∈ acc.enqueued ++ [p]
          exact List.mem_append_right _ (List.mem_singleton.2 rfl)
        · rw [h1] at hfalse
          cases hfalse
      · exact ih _ _ hnone p hp2
    · rw [if_neg h1] at hnone ⊢
      by_cases h2 : q.1 ∈ F
      · rw [if_pos h2] at hnone ⊢
        by_cases h3 : sf i = true
        · rw [if_pos h3] at hnone
          exact Option.noConfusion hnone
        · rw [if_neg h3] at hnone ⊢
          rcases List.mem_cons.1 hp with rfl | hp2
          · refine ⟨fun hcontra => absurd hcontra h1, fun _ _ => ?_⟩
            apply routeEvents_acc_delivered
            show p ∈ acc.delivered ++ [p]
            exact List.mem_append_right _ (List.mem_singleton.2 rfl)
          · exact ih _ _ hnone p hp2
      · rw [if_neg h2] at hnone ⊢
        rcases List.mem_cons.1 hp with rfl | hp2
        · exact ⟨fun hcontra => absurd hcontra h1, fun _ hin => absurd hin h2⟩
        · exact ih _ _ hnone p hp2

/-! ## C2 -/

/-- C2, counterexample: the supervisor's upload-queue check tests the
response snapshot, not the event kind.  With the engine trace
`[PredictionOutputType, PredictionOutput (one output), Log, Done]`, the
`logs` event is yielded while `upload_outputs` is already non-empty, so it
is put on the upload queue (and not sent to the sink) — two events enter
the Upload Stage for this job, the `logs` one and the `completed` one —
contradicting the claim that only the final completed event does. -/
theorem c2_counterexample :
    (processMessage { predict_timeout := none }
        (Except.ok { webhook := none, redis_pubsub_key := some "ch", cancel_key := none,
                     webhook_events_filter := some ["start", "logs", "completed"] })
        (Except.ok { upload_path_prefix := none })
        [ { event := Event.predictionOutputType false, cancelNow := false, now := 1 },
          { event := Event.predictionOutput
              { outputs := [{ image_bytes := "b", target_quality := 90,
                              target_extension := ".png" }], nsfw_count := 1 },
            cancelNow := false, now := 2 },
          { event := Event.log "x", cancelNow := false, now := 3 },
          { event := Event.done { error := false, error_detail := "", canceled := false },
            cancelNow := false, now := 4 } ]
        0 5 (fun _ => false) none 0).uploadEnqueued.map Prod.fst
      = [WebhookEvent.logs, WebhookEvent.completed]
    ∧ (processMessage { predict_timeout := none }
        (Except.ok { webhook := none, redis_pubsub_key := some "ch", cancel_key := none,
                     webhook_events_filter := some ["start", "logs", "completed"] })
        (Except.ok { upload_path_prefix := none })
        [ { event := Event.predictionOutputType false, cancelNow := false, now := 1 },
          { event := Event.predictionOutput
              { outputs := [{ image_bytes := "b", target_quality := 90,
                              target_extension := ".png" }], nsfw_count := 1 },
            cancelNow := false, now := 2 },
          { event := Event.log "x", cancelNow := false, now := 3 },
          { event := Event.done { error := false, error_detail := "", canceled := false },
            cancelNow := false, now := 4 } ]
        0 5 (fun _ => false) none 0).delivered.map Prod.fst
      = [WebhookEvent.start] := by
  exact ⟨rfl, rfl⟩

/-! ## C3 -/

/-- C3, counterexample: a job with no webhook, routed to the pub/sub sink,
and `webhook_events_filter = ["completed"]`.  The driver emits `start` and
`completed`, but only `completed` is published: the events filter is
applied on the pub/sub path too, contrary to the claim. -/
theorem c3_counterexample :
    (processMessage { predict_timeout := none }
        (Except.ok { webhook := none, redis_pubsub_key := some "ch", cancel_key := none,
                     webhook_events_filter := some ["completed"] })
        (Except.ok { upload_path_prefix := none })
        [ { event := Event.done { error := false, error_detail := "", canceled := false },
            cancelNow := false, now := 1 } ]
        0 2 (fun _ => false) none 0).sinkUsed = some (SinkKind.pubsub "ch")
    ∧ (runPrediction { predict_timeout := none } (Except.ok { upload_path_prefix := none })
        [ { event := Event.done { error := false, error_detail := "", canceled := false },
            cancelNow := false, now := 1 } ] 0 2).events.map Prod.fst
      = [WebhookEvent.start, WebhookEvent.completed]
    ∧ (processMessage { predict_timeout := none }
        (Except.ok { webhook := none, redis_pubsub_key := some "ch", cancel_key := none,
                     webhook_events_filter := some ["completed"] })
        (Except.ok { upload_path_prefix := none })
        [ { event := Event.done { error := false, error_detail := "", canceled := false },
            cancelNow := false, now := 1 } ]
        0 2 (fun _ => false) none 0).delivered.map Prod.fst
      = [WebhookEvent.completed] := by
  exact ⟨rfl, rfl, rfl⟩

/-! ## Driver-loop lemmas and remaining claims -/

theorem dispatchEvent_ok_spec (inp : InputObj) (st : LoopState) (e : Event)
    (st' : LoopState) (ems : List (WebhookEvent × Response))
    (h : dispatchEvent inp st e = Except.ok (st', ems)) :
    (∀ p ∈ ems, p.1 = WebhookEvent.logs)
    ∧ st'.wasCanceled = st.wasCanceled
    ∧ st'.timedOut = st.timedOut := by
  cases e with
  | heartbeat =>
    simp only [dispatchEvent] at h
    cases h
    exact ⟨by simp, rfl, rfl⟩
  | log m =>
    simp only [dispatchEvent] at h
    cases h
    refine ⟨?_, rfl, rfl⟩
    intro p hp
    rcases List.mem_singleton.1 hp with rfl
    rfl
  | predictionOutputType multi =>
    simp only [dispatchEvent] at h
    split at h
    · cases h
    · cases h
      exact ⟨by simp, rfl, rfl⟩
  | predictionOutput payload =>
    simp only [dispatchEvent] at h
    split at h
    · cases h
    · split at h <;> cases h <;> exact ⟨by simp, rfl, rfl⟩
  | done d =>
    simp only [dispatchEvent] at h
    split at h
    · cases h
    · cases h
      exact ⟨by simp, rfl, rfl⟩
  | unknown =>
    simp only [dispatchEvent] at h
    cases h
    exact ⟨by simp, rfl, rfl⟩

theorem predictLoop_emitted_logs (cfg : DriverConfig) (inp : InputObj) (t0 : Nat) :
    ∀ (steps : List StepInput) (st : LoopState) (p : WebhookEvent × Response),
      p ∈ (predictLoop cfg inp t0 steps st).emitted → p.1 = WebhookEvent.logs := by
  intro steps
  induction steps with
  | nil => intro st p hp; cases hp
  | cons s rest ih =>
    intro st p hp
    simp only [predictLoop] at hp
    split at hp
    · cases hp
    · rename_i st3ems heq
      rcases List.mem_append.1 hp with hl | hr
      · exact (dispatchEvent_ok_spec _ _ _ _ _ heq).1 p hl
      · exact ih _ p hr

theorem checkCancel_spec (st : LoopState) (cn : Bool) :
    (checkCancel st cn).1.wasCanceled = (st.wasCanceled || cn)
    ∧ (checkCancel st cn).1.timedOut = st.timedOut
    ∧ (checkCancel st cn).2
        = (if !st.wasCanceled && cn then [CancelReason.userCancel] else []) := by
  cases hw : st.wasCanceled <;> cases cn <;> simp [checkCancel, hw]

theorem checkTimeout_spec (cfg : DriverConfig) (t0 now : Nat) (st : LoopState) :
    (checkTimeout cfg t0 now st).1.timedOut
      = (st.timedOut || timeoutCond cfg t0 now)
    ∧ (checkTimeout cfg t0 now st).1.wasCanceled = st.wasCanceled
    ∧ (checkTimeout cfg t0 now st).2
        = (if !st.timedOut && timeoutCond cfg t0 now then [CancelReason.timeout] else []) := by
  cases hpt : cfg.predict_timeout with
  | none => simp [checkTimeout, timeoutCond, hpt]
  | some t =>
    cases ht : st.timedOut
    · by_cases h0 : (t != 0) = true
      · by_cases hgt : now - t0 > t
        · simp [checkTimeout, timeoutCond, hpt, ht, h0, hgt]
        · simp [checkTimeout, timeoutCond, hpt, ht, h0, hgt]
      · simp only [Bool.not_eq_true] at h0
        simp [checkTimeout, timeoutCond, hpt, ht, h0]
    · simp [checkTimeout, timeoutCond, hpt, ht]


theorem predictLoop_flags_mono (cfg : DriverConfig) (inp : InputObj) (t0 : Nat) :
    ∀ (steps : List StepInput) (st : LoopState),
      (st.wasCanceled = true → (predictLoop cfg inp t0 steps st).state.wasCanceled = true)
      ∧ (st.timedOut = true → (predictLoop cfg inp t0 steps st).state.timedOut = true) := by
  intro steps
  induction steps with
  | nil => intro st; exact ⟨fun h => h, fun h => h⟩
  | cons s rest ih =>
    intro st
    constructor
    · intro hw
      simp only [predictLoop]
      split
      · rename_i heq
        have h2 := (checkTimeout_spec cfg t0 s.now (checkCancel st s.cancelNow).1).2.1
        have h1 := (checkCancel_spec st s.cancelNow).1
        rw [h2, h1, hw]
        rfl
      · rename_i st3 ems heq
        have h2 := (checkTimeout_spec cfg t0 s.now (checkCancel st s.cancelNow).1).2.1
        have h1 := (checkCancel_spec st s.cancelNow).1
        have h3 := (dispatchEvent_ok_spec _ _ _ _ _ heq).2.1
        exact (ih st3).1 (by rw [h3, h2, h1, hw]; rfl)
    · intro hw
      simp only [predictLoop]
      split
      · rename_i heq
        have h2 := (checkTimeout_spec cfg t0 s.now (checkCancel st s.cancelNow).1).1
        have h1 := (checkCancel_spec st s.cancelNow).2.1
        rw [h2, h1, hw]
        rfl
      · rename_i st3 ems heq
        have h2 := (checkTimeout_spec cfg t0 s.now (checkCancel st s.cancelNow).1).1
        have h1 := (checkCancel_spec st s.cancelNow).2.1
        have h3 := (dispatchEvent_ok_spec _ _ _ _ _ heq).2.2
        exact (ih st3).2 (by rw [h3, h2, h1, hw]; rfl)

theorem predictLoop_signal_counts (cfg : DriverConfig) (inp : InputObj) (t0 : Nat) :
    ∀ (steps : List StepInput) (st : LoopState),
      ((predictLoop cfg inp t0 steps st).signals.count CancelReason.userCancel
        = ((predictLoop cfg inp t0 steps st).state.wasCanceled && !st.wasCanceled).toNat)
      ∧ ((predictLoop cfg inp t0 steps st).signals.count CancelReason.timeout
        = ((predictLoop cfg inp t0 steps st).state.timedOut && !st.timedOut).toNat) := by
  intro steps
  induction steps with
  | nil =>
    intro st
    constructor <;> simp [predictLoop]
  | cons s rest ih =>
    intro st
    have hc1w := (checkCancel_spec st s.cancelNow).1
    have hc1t := (checkCancel_spec st s.cancelNow).2.1
    have hc1s := (checkCancel_spec st s.cancelNow).2.2
    have hc2t := (checkTimeout_spec cfg t0 s.now (checkCancel st s.cancelNow).1).1
    have hc2w := (checkTimeout_spec cfg t0 s.now (checkCancel st s.cancelNow).1).2.1
    have hc2s := (checkTimeout_spec cfg t0 s.now (checkCancel st s.cancelNow).1).2.2
    rw [hc1t] at hc2s hc2t
    constructor
    · simp only [predictLoop]
      split
      · rename_i heq
        rw [List.count_append, hc1s, hc2s, hc2w, hc1w]
        cases hw : st.wasCanceled <;> cases hcn : s.cancelNow <;>
          cases hto : st.timedOut <;>
          cases htc : timeoutCond cfg t0 s.now <;> simp
      · rename_i st3 ems heq
        have h3w := (dispatchEvent_ok_spec _ _ _ _ _ heq).2.1
        rw [hc2w, hc1w] at h3w
        have hrec := (ih st3).1
        rw [h3w] at hrec
        have hmono2 : (st.wasCanceled || s.cancelNow) = true →
            (predictLoop cfg inp t0 rest st3).state.wasCanceled = true := by
          intro hh
          exact (predictLoop_flags_mono cfg inp t0 rest st3).1 (by rw [h3w]; exact hh)
        simp only [List.count_append, hc1s, hc2s]
        cases hw : st.wasCanceled <;> cases hcn : s.cancelNow <;>
          cases hto : st.timedOut <;> cases htc : timeoutCond cfg t0 s.now <;>
          simp_all
    · simp only [predictLoop]
      split
      · rename_i heq
        rw [List.count_append, hc1s, hc2s, hc2t]
        cases hw : st.wasCanceled <;> cases hcn : s.cancelNow <;>
          cases hto : st.timedOut <;>
          cases htc : timeoutCond cfg t0 s.now <;> simp
      · rename_i st3 ems heq
        have h3t := (dispatchEvent_ok_spec _ _ _ _ _ heq).2.2
        rw [hc2t] at h3t
        have hrec := (ih st3).2
        rw [h3t] at hrec
        have hmono2 : (st.timedOut || timeoutCond cfg t0 s.now) = true →
            (predictLoop cfg inp t0 rest st3).state.timedOut = true := by
          intro hh
          exact (predictLoop_flags_mono cfg inp t0 rest st3).2 (by rw [h3t]; exact hh)
        simp only [List.count_append, hc1s, hc2s]
        cases hw : st.wasCanceled <;> cases hcn : s.cancelNow <;>
          cases hto : st.timedOut <;> cases htc : timeoutCond cfg t0 s.now <;>
          simp_all

theorem predictLoop_flags_any (cfg : DriverConfig) (inp : InputObj) (t0 : Nat) :
    ∀ (steps : List StepInput) (st : LoopState),
      (predictLoop cfg inp t0 steps st).aborted = none →
      ((predictLoop cfg inp t0 steps st).state.wasCanceled
          = (st.wasCanceled || steps.any (fun s => s.cancelNow)))
      ∧ ((predictLoop cfg inp t0 steps st).state.timedOut
          = (st.timedOut || steps.any (fun s => timeoutCond cfg t0 s.now))) := by
  intro steps
  induction steps with
  | nil => intro st _; simp [predictLoop]
  | cons s rest ih =>
    intro st hab
    simp only [predictLoop] at hab ⊢
    split at hab
    · cases hab
    · rename_i st3 ems heq
      have h3w := (dispatchEvent_ok_spec _ _ _ _ _ heq).2.1
      have h3t := (dispatchEvent_ok_spec _ _ _ _ _ heq).2.2
      rw [(checkTimeout_spec cfg t0 s.now (checkCancel st s.cancelNow).1).2.1,
        (checkCancel_spec st s.cancelNow).1] at h3w
      rw [(checkTimeout_spec cfg t0 s.now (checkCancel st s.cancelNow).1).1,
        (checkCancel_spec st s.cancelNow).2.1] at h3t
      have := ih st3 hab
      rw [h3w, h3t] at this
      constructor
      · show (predictLoop cfg inp t0 rest st3).state.wasCanceled = _
        rw [this.1, List.any_cons, Bool.or_assoc]
      · show (predictLoop cfg inp t0 rest st3).state.timedOut = _
        rw [this.2, List.any_cons, Bool.or_assoc]

theorem predictLoop_single_step (cfg : DriverConfig) (inp : InputObj) (t0 : Nat)
    (s : StepInput) (st : LoopState) :
    (predictLoop cfg inp t0 [s] st).signals
      = (checkCancel st s.cancelNow).2
        ++ (checkTimeout cfg t0 s.now (checkCancel st s.cancelNow).1).2 := by
  simp only [predictLoop]
  split
  · rfl
  · simp [predictLoop]

theorem computeEventsFilter_completed (wef : Option (List String))
    (F : List WebhookEvent) (h : computeEventsFilter wef = Except.ok F) :
    WebhookEvent.completed ∈ F := by
  cases wef with
  | none =>
    simp only [computeEventsFilter] at h
    cases h
    decide
  | some evs =>
    simp only [computeEventsFilter] at h
    split at h
    · cases h
      exact List.mem_append_right _ (List.mem_singleton.2 rfl)
    · cases h

theorem runPrediction_events_last (cfg : DriverConfig) (validated : Except String InputObj)
    (steps : List StepInput) (t0 tE : Nat) :
    (runPrediction cfg validated steps t0 tE).events.getLast?
      = some (WebhookEvent.completed, (runPrediction cfg validated steps t0 tE).finalResponse) := by
  cases validated with
  | error e => rfl
  | ok inp =>
    show ((WebhookEvent.start, startResponse t0)
        :: ((predictLoop cfg inp t0 steps (initLoopState t0)).emitted
          ++ [(WebhookEvent.completed, _)])).getLast? = _
    rw [← List.cons_append, List.getLast?_concat]
    rfl

theorem runPrediction_completed_mem (cfg : DriverConfig) (validated : Except String InputObj)
    (steps : List StepInput) (t0 tE : Nat) :
    (WebhookEvent.completed, (runPrediction cfg validated steps t0 tE).finalResponse)
      ∈ (runPrediction cfg validated steps t0 tE).events := by
  cases validated with
  | error e => exact List.mem_singleton.2 rfl
  | ok inp =>
    exact List.mem_cons_of_mem _
      (List.mem_append_right _ (List.mem_singleton.2 rfl))

/-- C7: the supervisor acks and deletes the message iff the driver's event
iteration completed without an exception, in which case a completed event
was delivered to the sink or enqueued to the Upload Stage; when an
exception escapes the loop body, ack and delete are skipped, the exception
is logged, and the loop continues (`should_exit` is not set). -/
theorem c7_ack_iff_completed (cfg : DriverConfig) (parsed : Except String Message)
    (validated : Except String InputObj) (steps : List StepInput) (t0 tE : Nat)
    (sf : Nat → Bool) (maxN : Option Nat) (fc0 : Nat) :
    (processMessage cfg parsed validated steps t0 tE sf maxN fc0).acked
        = (processMessage cfg parsed validated steps t0 tE sf maxN fc0).iterationCompleted
    ∧ (processMessage cfg parsed validated steps t0 tE sf maxN fc0).deleted
        = (processMessage cfg parsed validated steps t0 tE sf maxN fc0).acked
    ∧ (processMessage cfg parsed validated steps t0 tE sf maxN fc0).iterationCompleted
        = (processMessage cfg parsed validated steps t0 tE sf maxN fc0).exceptionLogged.isNone
    ∧ ((processMessage cfg parsed validated steps t0 tE sf maxN fc0).exceptionLogged.isSome →
        (processMessage cfg parsed validated steps t0 tE sf maxN fc0).acked = false
        ∧ (processMessage cfg parsed validated steps t0 tE sf maxN fc0).deleted = false
        ∧ (processMessage cfg parsed validated steps t0 tE sf maxN fc0).shouldExit = false)
    ∧ ((processMessage cfg parsed validated steps t0 tE sf maxN fc0).acked = true →
        ∃ r : Response,
          (WebhookEvent.completed, r)
              ∈ (processMessage cfg parsed validated steps t0 tE sf maxN fc0).delivered
          ∨ (WebhookEvent.completed, r)
              ∈ (processMessage cfg parsed validated steps t0 tE sf maxN fc0).uploadEnqueued) := by
  rcases parsed with e | msg
  · exact ⟨rfl, rfl, rfl, fun _ => ⟨rfl, rfl, rfl⟩, fun hc => Bool.noConfusion hc⟩
  · cases hs : selectSink msg with
    | error e =>
      have hout : processMessage cfg (Except.ok msg) validated steps t0 tE sf maxN fc0
          = exceptionalOutcome none e fc0 := by
        simp only [processMessage, hs]
      rw [hout]
      exact ⟨rfl, rfl, rfl, fun _ => ⟨rfl, rfl, rfl⟩, fun hc => Bool.noConfusion hc⟩
    | ok sink =>
      cases hF : computeEventsFilter msg.webhook_events_filter with
      | error e =>
        have hout : processMessage cfg (Except.ok msg) validated steps t0 tE sf maxN fc0
            = exceptionalOutcome (some sink) e fc0 := by
          simp only [processMessage, hs, hF]
        rw [hout]
        exact ⟨rfl, rfl, rfl, fun _ => ⟨rfl, rfl, rfl⟩, fun hc => Bool.noConfusion hc⟩
      | ok F =>
        cases hR : (routeEvents F sf 0 (runPrediction cfg validated steps t0 tE).events
            { delivered := [], enqueued := [] }).2 with
        | some e =>
          have hout : processMessage cfg (Except.ok msg) validated steps t0 tE sf maxN fc0
              = { sinkUsed := some sink,
                  delivered := (routeEvents F sf 0
                    (runPrediction cfg validated steps t0 tE).events
                    { delivered := [], enqueued := [] }).1.delivered,
                  uploadEnqueued := (routeEvents F sf 0
                    (runPrediction cfg validated steps t0 tE).events
                    { delivered := [], enqueued := [] }).1.enqueued,
                  acked := false, deleted := false, exceptionLogged := some e,
                  failureCount := fc0, shouldExit := false,
                  iterationCompleted := false } := by
            simp only [processMessage, hs, hF, hR]
          rw [hout]
          exact ⟨rfl, rfl, rfl, fun _ => ⟨rfl, rfl, rfl⟩, fun hc => Bool.noConfusion hc⟩
        | none =>
          have hout : processMessage cfg (Except.ok msg) validated steps t0 tE sf maxN fc0
              = { sinkUsed := some sink,
                  delivered := (routeEvents F sf 0
                    (runPrediction cfg validated steps t0 tE).events
                    { delivered := [], enqueued := [] }).1.delivered,
                  uploadEnqueued := (routeEvents F sf 0
                    (runPrediction cfg validated steps t0 tE).events
                    { delivered := [], enqueued := [] }).1.enqueued,
                  acked := true, deleted := true, exceptionLogged := none,
                  failureCount := (updateFailureStreak maxN
                    (runPrediction cfg validated steps t0 tE).finalResponse.status fc0).1,
                  shouldExit := (updateFailureStreak maxN
                    (runPrediction cfg validated steps t0 tE).finalResponse.status fc0).2,
                  iterationCompleted := true } := by
            simp only [processMessage, hs, hF, hR]
          rw [hout]
          refine ⟨rfl, rfl, rfl, fun hc => Bool.noConfusion hc, fun _ => ?_⟩
          refine ⟨(runPrediction cfg validated steps t0 tE).finalResponse, ?_⟩
          have hmem := runPrediction_completed_mem cfg validated steps t0 tE
          have hroute := routeEvents_none_complete F sf
            (runPrediction cfg validated steps t0 tE).events 0
            { delivered := [], enqueued := [] } hR _ hmem
          by_cases hup : responseHasUploads
              (runPrediction cfg validated steps t0 tE).finalResponse = true
          · exact Or.inr (hroute.1 hup)
          · rw [Bool.not_eq_true] at hup
            exact Or.inl (hroute.2 hup (computeEventsFilter_completed _ _ hF))

/-- C6: in the driver loop the cancel check runs before the timeout check at
every iteration, each flag is one-shot: `was_canceled` and `timed_out` never
return to false (conjuncts 1-2), each transition signals engine cancel
exactly once — the signal count equals the 0/1 transition indicator
(conjuncts 3-4) — the transition happens exactly when the cancel oracle
first answers true resp. when the elapsed time first exceeds
`predict_timeout` (conjuncts 5-6, for loops that are not cut short by an
assertion), and within one iteration a user-cancel signal precedes a
timeout signal (conjunct 7). -/
theorem c6_cancel_timeout_oneshot (cfg : DriverConfig) (inp : InputObj) (t0 : Nat)
    (steps : List StepInput) (st : LoopState) :
    (st.wasCanceled = true → (predictLoop cfg inp t0 steps st).state.wasCanceled = true)
    ∧ (st.timedOut = true → (predictLoop cfg inp t0 steps st).state.timedOut = true)
    ∧ (predictLoop cfg inp t0 steps st).signals.count CancelReason.userCancel
        = ((predictLoop cfg inp t0 steps st).state.wasCanceled && !st.wasCanceled).toNat
    ∧ (predictLoop cfg inp t0 steps st).signals.count CancelReason.timeout
        = ((predictLoop cfg inp t0 steps st).state.timedOut && !st.timedOut).toNat
    ∧ ((predictLoop cfg inp t0 steps st).aborted = none →
        (predictLoop cfg inp t0 steps st).state.wasCanceled
          = (st.wasCanceled || steps.any (fun s => s.cancelNow)))
    ∧ ((predictLoop cfg inp t0 steps st).aborted = none →
        (predictLoop cfg inp t0 steps st).state.timedOut
          = (st.timedOut || steps.any (fun s => timeoutCond cfg t0 s.now)))
    ∧ (∀ s2 : StepInput, (predictLoop cfg inp t0 [s2] st).signals
        = (checkCancel st s2.cancelNow).2
          ++ (checkTimeout cfg t0 s2.now (checkCancel st s2.cancelNow).1).2) :=
  ⟨(predictLoop_flags_mono cfg inp t0 steps st).1,
   (predictLoop_flags_mono cfg inp t0 steps st).2,
   (predictLoop_signal_counts cfg inp t0 steps st).1,
   (predictLoop_signal_counts cfg inp t0 steps st).2,
   fun h => ((predictLoop_flags_any cfg inp t0 steps st) h).1,
   fun h => ((predictLoop_flags_any cfg inp t0 steps st) h).2,
   fun s2 => predictLoop_single_step cfg inp t0 s2 st⟩

/-- C2, amended: the supervisor hands an event to the Upload Stage iff the
response snapshot at its yield time carries a non-empty `upload_outputs`
list; directly delivered events have an empty or absent one and pass the
events filter; the `start` event never enters the Upload Stage; the final
event is the `completed` one; and the completed event with non-empty
uploads is enqueued.  (A `logs` event yielded after an output-bearing
`PredictionOutput` also enters the Upload Stage — see the counterexample —
so "only the final completed event" is false.) -/
theorem c2_upload_routing (cfg : DriverConfig) (inp : InputObj) (steps : List StepInput)
    (t0 tE : Nat) (F : List WebhookEvent) (sf : Nat → Bool) :
    (∀ p, p ∈ (routeEvents F sf 0 (runPrediction cfg (Except.ok inp) steps t0 tE).events
        { delivered := [], enqueued := [] }).1.enqueued →
      responseHasUploads p.2 = true)
    ∧ (∀ p, p ∈ (routeEvents F sf 0 (runPrediction cfg (Except.ok inp) steps t0 tE).events
        { delivered := [], enqueued := [] }).1.delivered →
      responseHasUploads p.2 = false ∧ p.1 ∈ F)
    ∧ (∀ p, p ∈ (runPrediction cfg (Except.ok inp) steps t0 tE).events →
        p.1 = WebhookEvent.start → responseHasUploads p.2 = false)
    ∧ (runPrediction cfg (Except.ok inp) steps t0 tE).events.getLast?
        = some (WebhookEvent.completed,
            (runPrediction cfg (Except.ok inp) steps t0 tE).finalResponse)
    ∧ ((routeEvents F sf 0 (runPrediction cfg (Except.ok inp) steps t0 tE).events
          { delivered := [], enqueued := [] }).2 = none →
        responseHasUploads (runPrediction cfg (Except.ok inp) steps t0 tE).finalResponse
          = true →
        (WebhookEvent.completed, (runPrediction cfg (Except.ok inp) steps t0 tE).finalResponse)
          ∈ (routeEvents F sf 0 (runPrediction cfg (Except.ok inp) steps t0 tE).events
              { delivered := [], enqueued := [] }).1.enqueued) := by
  refine ⟨?_, ?_, ?_, runPrediction_events_last cfg (Except.ok inp) steps t0 tE, ?_⟩
  · intro p hp
    rcases routeEvents_enqueued_sound F sf _ _ _ p hp with h | ⟨h, _⟩
    · cases h
    · exact h
  · intro p hp
    rcases routeEvents_delivered_sound F sf _ _ _ p hp with h | ⟨h1, h2, _⟩
    · cases h
    · exact ⟨h1, h2⟩
  · intro p hp hstart
    have hev : (runPrediction cfg (Except.ok inp) steps t0 tE).events
        = (WebhookEvent.start, startResponse t0)
          :: ((predictLoop cfg inp t0 steps (initLoopState t0)).emitted
            ++ [(WebhookEvent.completed,
                (runPrediction cfg (Except.ok inp) steps t0 tE).finalResponse)]) := rfl
    rw [hev] at hp
    rcases List.mem_cons.1 hp with rfl | hp2
    · rfl
    · rcases List.mem_append.1 hp2 with hl | hr
      · have := predictLoop_emitted_logs cfg inp t0 steps (initLoopState t0) p hl
        rw [hstart] at this
        cases this
      · rcases List.mem_singleton.1 hr with rfl
        cases hstart
  · intro hnone hup
    exact (routeEvents_none_complete F sf _ 0 _ hnone _
      (runPrediction_completed_mem cfg (Except.ok inp) steps t0 tE)).1 hup

theorem processMessage_sinkUsed (cfg : DriverConfig) (msg : Message)
    (validated : Except String InputObj) (steps : List StepInput) (t0 tE : Nat)
    (sf : Nat → Bool) (maxN : Option Nat) (fc0 : Nat) (sink : SinkKind)
    (hs : selectSink msg = Except.ok sink) :
    (processMessage cfg (Except.ok msg) validated steps t0 tE sf maxN fc0).sinkUsed
      = some sink := by
  cases hF : computeEventsFilter msg.webhook_events_filter with
  | error e => simp only [processMessage, hs, hF]; rfl
  | ok F =>
    cases hR : (routeEvents F sf 0 (runPrediction cfg validated steps t0 tE).events
        { delivered := [], enqueued := [] }).2 with
    | some e => simp only [processMessage, hs, hF, hR]
    | none => simp only [processMessage, hs, hF, hR]

theorem processMessage_filter_only (cfg : DriverConfig) (msg1 msg2 : Message)
    (validated : Except String InputObj) (steps : List StepInput) (t0 tE : Nat)
    (sf : Nat → Bool) (maxN : Option Nat) (fc0 : Nat) (s1 s2 : SinkKind)
    (h1 : selectSink msg1 = Except.ok s1) (h2 : selectSink msg2 = Except.ok s2)
    (hf : msg1.webhook_events_filter = msg2.webhook_events_filter) :
    (processMessage cfg (Except.ok msg1) validated steps t0 tE sf maxN fc0).delivered
      = (processMessage cfg (Except.ok msg2) validated steps t0 tE sf maxN fc0).delivered
    ∧ (processMessage cfg (Except.ok msg1) validated steps t0 tE sf maxN fc0).uploadEnqueued
      = (processMessage cfg (Except.ok msg2) validated steps t0 tE sf maxN fc0).uploadEnqueued
    ∧ (processMessage cfg (Except.ok msg1) validated steps t0 tE sf maxN fc0).acked
      = (processMessage cfg (Except.ok msg2) validated steps t0 tE sf maxN fc0).acked := by
  cases hF : computeEventsFilter msg1.webhook_events_filter with
  | error e =>
    have hF2 : computeEventsFilter msg2.webhook_events_filter = Except.error e := by
      rw [← hf]; exact hF
    simp only [processMessage, h1, h2, hF, hF2]
    exact ⟨rfl, rfl, rfl⟩
  | ok F =>
    have hF2 : computeEventsFilter msg2.webhook_events_filter = Except.ok F := by
      rw [← hf]; exact hF
    cases hR : (routeEvents F sf 0 (runPrediction cfg validated steps t0 tE).events
        { delivered := [], enqueued := [] }).2 with
    | some e =>
      simp only [processMessage, h1, h2, hF, hF2, hR]
      refine ⟨?_, ?_, ?_⟩ <;> first | rfl | trivial
    | none =>
      simp only [processMessage, h1, h2, hF, hF2, hR]
      refine ⟨?_, ?_, ?_⟩ <;> first | rfl | trivial

theorem processMessage_delivered_filter (cfg : DriverConfig) (msg : Message)
    (validated : Except String InputObj) (steps : List StepInput) (t0 tE : Nat)
    (sf : Nat → Bool) (maxN : Option Nat) (fc0 : Nat) :
    ∀ p ∈ (processMessage cfg (Except.ok msg) validated steps t0 tE sf maxN fc0).delivered,
      ∃ F, computeEventsFilter msg.webhook_events_filter = Except.ok F ∧ p.1 ∈ F := by
  intro p hp
  cases hs : selectSink msg with
  | error e =>
    rw [show processMessage cfg (Except.ok msg) validated steps t0 tE sf maxN fc0
        = exceptionalOutcome none e fc0 by simp only [processMessage, hs]] at hp
    cases hp
  | ok sink =>
    cases hF : computeEventsFilter msg.webhook_events_filter with
    | error e =>
      rw [show processMessage cfg (Except.ok msg) validated steps t0 tE sf maxN fc0
          = exceptionalOutcome (some sink) e fc0 by simp only [processMessage, hs, hF]] at hp
      cases hp
    | ok F =>
      refine ⟨F, rfl, ?_⟩
      cases hR : (routeEvents F sf 0 (runPrediction cfg validated steps t0 tE).events
          { delivered := [], enqueued := [] }).2 with
      | some e =>
        simp only [processMessage, hs, hF, hR] at hp
        rcases routeEvents_delivered_sound F sf _ _ _ p hp with h | ⟨_, h2, _⟩
        · cases h
        · exact h2
      | none =>
        simp only [processMessage, hs, hF, hR] at hp
        rcases routeEvents_delivered_sound F sf _ _ _ p hp with h | ⟨_, h2, _⟩
        · cases h
        · exact h2

/-- C3, amended: the `webhook_events_filter` is applied identically on the
pub/sub and webhook paths: for the same message contents, the delivered and
upload-enqueued events are the same whichever sink is selected, and every
event published to the pub/sub channel has its kind in the computed events
filter.  (No-filter messages get the default filter, which admits every
kind.) -/
theorem c3_pubsub_filtered (cfg : DriverConfig) (chan url : String) (ck : Option String)
    (wef : Option (List String)) (validated : Except String InputObj)
    (steps : List StepInput) (t0 tE : Nat) (sf : Nat → Bool) (maxN : Option Nat)
    (fc0 : Nat) (msgPub msgWeb : Message)
    (hPub : msgPub = { webhook := none, redis_pubsub_key := some chan, cancel_key := ck,
                       webhook_events_filter := wef })
    (hWeb : msgWeb = { webhook := some url, redis_pubsub_key := some chan, cancel_key := ck,
                       webhook_events_filter := wef }) :
    (processMessage cfg (Except.ok msgPub) validated steps t0 tE sf maxN fc0).sinkUsed
        = some (SinkKind.pubsub chan)
    ∧ (processMessage cfg (Except.ok msgWeb) validated steps t0 tE sf maxN fc0).sinkUsed
        = some (SinkKind.webhook url)
    ∧ (processMessage cfg (Except.ok msgPub) validated steps t0 tE sf maxN fc0).delivered
        = (processMessage cfg (Except.ok msgWeb) validated steps t0 tE sf maxN fc0).delivered
    ∧ (processMessage cfg (Except.ok msgPub) validated steps t0 tE sf maxN fc0).uploadEnqueued
        = (processMessage cfg (Except.ok msgWeb) validated steps t0 tE sf maxN fc0).uploadEnqueued
    ∧ (∀ p ∈ (processMessage cfg (Except.ok msgPub) validated steps t0 tE sf maxN fc0).delivered,
        ∃ F, computeEventsFilter wef = Except.ok F ∧ p.1 ∈ F) := by
  subst hPub
  subst hWeb
  have key := processMessage_filter_only cfg
    { webhook := none, redis_pubsub_key := some chan, cancel_key := ck,
      webhook_events_filter := wef }
    { webhook := some url, redis_pubsub_key := some chan, cancel_key := ck,
      webhook_events_filter := wef }
    validated steps t0 tE sf maxN fc0 (SinkKind.pubsub chan) (SinkKind.webhook url)
    rfl rfl rfl
  exact ⟨processMessage_sinkUsed cfg _ validated steps t0 tE sf maxN fc0 _ rfl,
    processMessage_sinkUsed cfg _ validated steps t0 tE sf maxN fc0 _ rfl,
    key.1, key.2.1,
    processMessage_delivered_filter cfg _ validated steps t0 tE sf maxN fc0⟩

/-- C1: for every prediction whose engine loop ends with a `Done` event
(no assertion abort, `done_event` recorded), the terminal status of the
completed response is chosen by first match over
(`had_error`, `was_canceled`, `timed_out`, `done.error`) exactly as the
claim's tie-break table states, the error field of a failed status is the
table's, and a succeeded status sets `metrics.predict_time` to
`completed_at - started_at`. -/
theorem c1_terminal_status (cfg : DriverConfig) (inp : InputObj) (steps : List StepInput)
    (t0 tE : Nat) (st : LoopState) (d : DoneData)
    (hab : (runPrediction cfg (Except.ok inp) steps t0 tE).aborted = none)
    (hst : (runPrediction cfg (Except.ok inp) steps t0 tE).finalState = some st)
    (hd : st.doneEvent = some d) :
    (runPrediction cfg (Except.ok inp) steps t0 tE).finalResponse.status
        = specTerminalStatus st.hadError st.wasCanceled st.timedOut d
    ∧ ((runPrediction cfg (Except.ok inp) steps t0 tE).finalResponse.status = Status.failed →
        (runPrediction cfg (Except.ok inp) steps t0 tE).finalResponse.error
          = specTerminalError st.hadError st.wasCanceled st.timedOut d)
    ∧ ((runPrediction cfg (Except.ok inp) steps t0 tE).finalResponse.status
          = Status.succeeded →
        (runPrediction cfg (Except.ok inp) steps t0 tE).finalResponse.metrics_predict_time
          = some (tE - t0)) := by
  have hst2 : (predictLoop cfg inp t0 steps (initLoopState t0)).state = st :=
    Option.some.inj hst
  have hab2 : (predictLoop cfg inp t0 steps (initLoopState t0)).aborted = none := hab
  have hfr : (runPrediction cfg (Except.ok inp) steps t0 tE).finalResponse
      = finalResponseOf (predictLoop cfg inp t0 steps (initLoopState t0)) t0 tE := rfl
  rw [hfr]
  simp only [finalResponseOf, hab2, hst2, finishPrediction, hd]
  cases hHE : st.hadError <;> cases hc : d.canceled <;> cases hwc : st.wasCanceled <;>
    cases hto : st.timedOut <;> cases herr : d.error <;>
    simp [specTerminalStatus, specTerminalError, hHE, hc, hwc, hto, herr]

/-! ## Witnesses -/

/-- Concrete loop state for the C1 witness: the driver state after a single
`Done{error: false, canceled: false}` event. -/
def c1WitnessState : LoopState :=
  { response := { status := Status.processing, output := none, logs := "", error := none,
                  started_at := some 0, completed_at := none, metrics_predict_time := none,
                  nsfw_count := none, upload_outputs := some [], upload_prefix := none },
    timedOut := false, wasCanceled := false,
    doneEvent := some { error := false, error_detail := "", canceled := false },
    outputType := none, hadError := false }

/-- C1, witness: a clean run with one `Done` event evaluates to the
tie-break's `succeeded` branch. -/
theorem c1_witness :
    (runPrediction { predict_timeout := none } (Except.ok { upload_path_prefix := none })
        [{ event := Event.done { error := false, error_detail := "", canceled := false },
           cancelNow := false, now := 5 }] 0 7).finalResponse.status
      = specTerminalStatus false false false
          { error := false, error_detail := "", canceled := false } :=
  (c1_terminal_status { predict_timeout := none } { upload_path_prefix := none }
    [{ event := Event.done { error := false, error_detail := "", canceled := false },
       cancelNow := false, now := 5 }] 0 7 c1WitnessState
    { error := false, error_detail := "", canceled := false } rfl rfl rfl).1

/-- C2, witness: on the counterexample trace, the start event's snapshot has
no uploads, and the final completed response (which has uploads) is
enqueued to the Upload Stage. -/
theorem c2_witness :
    responseHasUploads (startResponse 0) = false
    ∧ (WebhookEvent.completed,
        (runPrediction { predict_timeout := none } (Except.ok { upload_path_prefix := none })
          [ { event := Event.predictionOutputType false, cancelNow := false, now := 1 },
            { event := Event.predictionOutput
                { outputs := [{ image_bytes := "b", target_quality := 90,
                                target_extension := ".png" }], nsfw_count := 1 },
              cancelNow := false, now := 2 },
            { event := Event.log "x", cancelNow := false, now := 3 },
            { event := Event.done { error := false, error_detail := "", canceled := false },
              cancelNow := false, now := 4 } ] 0 5).finalResponse)
      ∈ (routeEvents [WebhookEvent.start, WebhookEvent.logs, WebhookEvent.completed]
          (fun _ => false) 0
          (runPrediction { predict_timeout := none } (Except.ok { upload_path_prefix := none })
            [ { event := Event.predictionOutputType false, cancelNow := false, now := 1 },
              { event := Event.predictionOutput
                  { outputs := [{ image_bytes := "b", target_quality := 90,
                                  target_extension := ".png" }], nsfw_count := 1 },
                cancelNow := false, now := 2 },
              { event := Event.log "x", cancelNow := false, now := 3 },
              { event := Event.done { error := false, error_detail := "", canceled := false },
                cancelNow := false, now := 4 } ] 0 5).events
          { delivered := [], enqueued := [] }).1.enqueued :=
  ⟨(c2_upload_routing { predict_timeout := none } { upload_path_prefix := none }
      [ { event := Event.predictionOutputType false, cancelNow := false, now := 1 },
        { event := Event.predictionOutput
            { outputs := [{ image_bytes := "b", target_quality := 90,
                            target_extension := ".png" }], nsfw_count := 1 },
          cancelNow := false, now := 2 },
        { event := Event.log "x", cancelNow := false, now := 3 },
        { event := Event.done { error := false, error_detail := "", canceled := false },
          cancelNow := false, now := 4 } ] 0 5
      [WebhookEvent.start, WebhookEvent.logs, WebhookEvent.completed]
      (fun _ => false)).2.2.1 (WebhookEvent.start, startResponse 0) (by decide) rfl,
   (c2_upload_routing { predict_timeout := none } { upload_path_prefix := none }
      [ { event := Event.predictionOutputType false, cancelNow := false, now := 1 },
        { event := Event.predictionOutput
            { outputs := [{ image_bytes := "b", target_quality := 90,
                            target_extension := ".png" }], nsfw_count := 1 },
          cancelNow := false, now := 2 },
        { event := Event.log "x", cancelNow := false, now := 3 },
        { event := Event.done { error := false, error_detail := "", canceled := false },
          cancelNow := false, now := 4 } ] 0 5
      [WebhookEvent.start, WebhookEvent.logs, WebhookEvent.completed]
      (fun _ => false)).2.2.2.2 (by decide) (by decide)⟩

/-- C3, witness: for a concrete pub/sub job with filter `["completed"]` and
a one-`Done` trace, the two sinks receive the same deliveries, and the
delivered completed event is in the computed filter. -/
theorem c3_witness :
    (processMessage { predict_timeout := none }
        (Except.ok { webhook := none, redis_pubsub_key := some "ch", cancel_key := none,
                     webhook_events_filter := some ["completed"] })
        (Except.ok { upload_path_prefix := none })
        [ { event := Event.done { error := false, error_detail := "", canceled := false },
            cancelNow := false, now := 1 } ] 0 2 (fun _ => false) none 0).sinkUsed
      = some (SinkKind.pubsub "ch")
    ∧ (processMessage { predict_timeout := none }
        (Except.ok { webhook := none, redis_pubsub_key := some "ch", cancel_key := none,
                     webhook_events_filter := some ["completed"] })
        (Except.ok { upload_path_prefix := none })
        [ { event := Event.done { error := false, error_detail := "", canceled := false },
            cancelNow := false, now := 1 } ] 0 2 (fun _ => false) none 0).delivered
      = (processMessage { predict_timeout := none }
          (Except.ok { webhook := some "http://u", redis_pubsub_key := some "ch",
                       cancel_key := none, webhook_events_filter := some ["completed"] })
          (Except.ok { upload_path_prefix := none })
          [ { event := Event.done { error := false, error_detail := "", canceled := false },
              cancelNow := false, now := 1 } ] 0 2 (fun _ => false) none 0).delivered :=
  ⟨(c3_pubsub_filtered { predict_timeout := none } "ch" "http://u" none (some ["completed"])
      (Except.ok { upload_path_prefix := none })
      [ { event := Event.done { error := false, error_detail := "", canceled := false },
          cancelNow := false, now := 1 } ] 0 2 (fun _ => false) none 0 _ _ rfl rfl).1,
   (c3_pubsub_filtered { predict_timeout := none } "ch" "http://u" none (some ["completed"])
      (Except.ok { upload_path_prefix := none })
      [ { event := Event.done { error := false, error_detail := "", canceled := false },
          cancelNow := false, now := 1 } ] 0 2 (fun _ => false) none 0 _ _ rfl rfl).2.2.1⟩

/-- Loop state with both flags already set, for the C6 witness of the
monotone (never back to false) conjuncts. -/
def c6FlaggedState : LoopState :=
  { response := initResponse, timedOut := true, wasCanceled := true,
    doneEvent := none, outputType := none, hadError := false }

/-- C6, witness: on a trace where the cancel oracle fires at the second
heartbeat and the 1-second deadline is exceeded at the third, the signal
counts match the transition indicators, the final flags are the
disjunctions over the trace, flags already set stay set, and the
single-step signal order is cancel-then-timeout. -/
theorem c6_witness :
    (predictLoop { predict_timeout := some 1 } { upload_path_prefix := none } 0
        [ { event := Event.heartbeat, cancelNow := false, now := 0 },
          { event := Event.heartbeat, cancelNow := true, now := 0 },
          { event := Event.heartbeat, cancelNow := false, now := 3 },
          { event := Event.done { error := false, error_detail := "", canceled := true },
            cancelNow := false, now := 3 } ] (initLoopState 0)).signals.count
        CancelReason.userCancel
      = ((predictLoop { predict_timeout := some 1 } { upload_path_prefix := none } 0
          [ { event := Event.heartbeat, cancelNow := false, now := 0 },
            { event := Event.heartbeat, cancelNow := true, now := 0 },
            { event := Event.heartbeat, cancelNow := false, now := 3 },
            { event := Event.done { error := false, error_detail := "", canceled := true },
              cancelNow := false, now := 3 } ] (initLoopState 0)).state.wasCanceled
          && !(initLoopState 0).wasCanceled).toNat
    ∧ (predictLoop { predict_timeout := some 1 } { upload_path_prefix := none } 0
        [ { event := Event.heartbeat, cancelNow := false, now := 0 },
          { event := Event.heartbeat, cancelNow := true, now := 0 },
          { event := Event.heartbeat, cancelNow := false, now := 3 },
          { event := Event.done { error := false, error_detail := "", canceled := true },
            cancelNow := false, now := 3 } ] (initLoopState 0)).state.wasCanceled
      = ((initLoopState 0).wasCanceled
          || ([ { event := Event.heartbeat, cancelNow := false, now := 0 },
                { event := Event.heartbeat, cancelNow := true, now := 0 },
                { event := Event.heartbeat, cancelNow := false, now := 3 },
                { event := Event.done { error := false, error_detail := "", canceled := true },
                  cancelNow := false, now := 3 } ] : List StepInput).any
              (fun s => s.cancelNow))
    ∧ (predictLoop { predict_timeout := some 1 } { upload_path_prefix := none } 0
        [ { event := Event.heartbeat, cancelNow := true, now := 5 } ] c6FlaggedState).state.wasCanceled
      = true
    ∧ (predictLoop { predict_timeout := some 1 } { upload_path_prefix := none } 0
        [ { event := Event.heartbeat, cancelNow := true, now := 5 } ] (initLoopState 0)).signals
      = (checkCancel (initLoopState 0) true).2
        ++ (checkTimeout { predict_timeout := some 1 } 0 5
            (checkCancel (initLoopState 0) true).1).2 :=
  ⟨(c6_cancel_timeout_oneshot { predict_timeout := some 1 } { upload_path_prefix := none } 0
      [ { event := Event.heartbeat, cancelNow := false, now := 0 },
        { event := Event.heartbeat, cancelNow := true, now := 0 },
        { event := Event.heartbeat, cancelNow := false, now := 3 },
        { event := Event.done { error := false, error_detail := "", canceled := true },
          cancelNow := false, now := 3 } ] (initLoopState 0)).2.2.1,
   (c6_cancel_timeout_oneshot { predict_timeout := some 1 } { upload_path_prefix := none } 0
      [ { event := Event.heartbeat, cancelNow := false, now := 0 },
        { event := Event.heartbeat, cancelNow := true, now := 0 },
        { event := Event.heartbeat, cancelNow := false, now := 3 },
        { event := Event.done { error := false, error_detail := "", canceled := true },
          cancelNow := false, now := 3 } ] (initLoopState 0)).2.2.2.2.1 rfl,
   (c6_cancel_timeout_oneshot { predict_timeout := some 1 } { upload_path_prefix := none } 0
      [ { event := Event.heartbeat, cancelNow := true, now := 5 } ] c6FlaggedState).1 rfl,
   (c6_cancel_timeout_oneshot { predict_timeout := some 1 } { upload_path_prefix := none } 0
      [] (initLoopState 0)).2.2.2.2.2.2
     { event := Event.heartbeat, cancelNow := true, now := 5 }⟩

/-- C7, witness: a normal pub/sub job is acked with a completed event
delivered; a message whose payload fails to parse is not acked, not
deleted, and does not set `should_exit`. -/
theorem c7_witness :
    (processMessage { predict_timeout := none }
        (Except.ok { webhook := none, redis_pubsub_key := some "ch", cancel_key := none,
                     webhook_events_filter := some ["completed"] })
        (Except.ok { upload_path_prefix := none })
        [ { event := Event.done { error := false, error_detail := "", canceled := false },
            cancelNow := false, now := 1 } ] 0 2 (fun _ => false) none 0).acked
      = (processMessage { predict_timeout := none }
          (Except.ok { webhook := none, redis_pubsub_key := some "ch", cancel_key := none,
                       webhook_events_filter := some ["completed"] })
          (Except.ok { upload_path_prefix := none })
          [ { event := Event.done { error := false, error_detail := "", canceled := false },
              cancelNow := false, now := 1 } ] 0 2 (fun _ => false) none 0).iterationCompleted
    ∧ (∃ r : Response,
        (WebhookEvent.completed, r)
            ∈ (processMessage { predict_timeout := none }
                (Except.ok { webhook := none, redis_pubsub_key := some "ch", cancel_key := none,
                             webhook_events_filter := some ["completed"] })
                (Except.ok { upload_path_prefix := none })
                [ { event := Event.done { error := false, error_detail := "", canceled := false },
                    cancelNow := false, now := 1 } ] 0 2 (fun _ => false) none 0).delivered
        ∨ (WebhookEvent.completed, r)
            ∈ (processMessage { predict_timeout := none }
                (Except.ok { webhook := none, redis_pubsub_key := some "ch", cancel_key := none,
                             webhook_events_filter := some ["completed"] })
                (Except.ok { upload_path_prefix := none })
                [ { event := Event.done { error := false, error_detail := "", canceled := false },
                    cancelNow := false, now := 1 } ] 0 2 (fun _ => false) none 0).uploadEnqueued)
    ∧ (processMessage { predict_timeout := none } (Except.error "invalid json")
        (Except.ok { upload_path_prefix := none })
        [] 0 2 (fun _ => false) none 0).acked = false
    ∧ (processMessage { predict_timeout := none } (Except.error "invalid json")
        (Except.ok { upload_path_prefix := none })
        [] 0 2 (fun _ => false) none 0).deleted = false
    ∧ (processMessage { predict_timeout := none } (Except.error "invalid json")
        (Except.ok { upload_path_prefix := none })
        [] 0 2 (fun _ => false) none 0).shouldExit = false :=
  ⟨(c7_ack_iff_completed { predict_timeout := none }
      (Except.ok { webhook := none, redis_pubsub_key := some "ch", cancel_key := none,
                   webhook_events_filter := some ["completed"] })
      (Except.ok { upload_path_prefix := none })
      [ { event := Event.done { error := false, error_detail := "", canceled := false },
          cancelNow := false, now := 1 } ] 0 2 (fun _ => false) none 0).1,
   (c7_ack_iff_completed { predict_timeout := none }
      (Except.ok { webhook := none, redis_pubsub_key := some "ch", cancel_key := none,
                   webhook_events_filter := some ["completed"] })
      (Except.ok { upload_path_prefix := none })
      [ { event := Event.done { error := false, error_detail := "", canceled := false },
          cancelNow := false, now := 1 } ] 0 2 (fun _ => false) none 0).2.2.2.2 rfl,
   (c7_ack_iff_completed { predict_timeout := none } (Except.error "invalid json")
      (Except.ok { upload_path_prefix := none })
      [] 0 2 (fun _ => false) none 0).2.2.2.1 rfl |>.1,
   (c7_ack_iff_completed { predict_timeout := none } (Except.error "invalid json")
      (Except.ok { upload_path_prefix := none })
      [] 0 2 (fun _ => false) none 0).2.2.2.1 rfl |>.2.1,
   (c7_ack_iff_completed { predict_timeout := none } (Except.error "invalid json")
      (Except.ok { upload_path_prefix := none })
      [] 0 2 (fun _ => false) none 0).2.2.2.1 rfl |>.2.2⟩

end RedisQueue
